import Mathlib

/-!
# Session/token lifecycle manager: shallow embedding

Shallow embedding of the AuthService class (Angular service, TypeScript) of
the consultant-management client.  The service owns an in-memory optional
session (an Angular signal) mirrored to a localStorage record under a fixed
key, and exposes login / logout / getValidToken plus the derived observables
isAuthenticated and userEmail.

Modelling conventions:
* The two remote HTTP collaborators (the sign-in endpoint and the refresh
  endpoint) are passed in as functions from the request-relevant data to an
  Except value: an error value models a rejected/failed HTTP observable.
* Date.now() is passed in as an explicit integer parameter now
  (milliseconds since epoch).
* localStorage under the fixed key is modelled as an Option Json value; the
  string layer (JSON.stringify / JSON.parse on well-formed data) is
  abstracted away, and a syntactic parse failure corresponds to the absence
  of a well-formed stored Json value (the TypeScript catch branch returning
  null).
* Each operation that may hit the network also returns a Nat counting how
  many network calls it actually performed, so call-count properties are
  expressible.
* environment.firebase.apiKey is a String; the empty string models a
  missing/falsy key (the assertApiKey guard).  typeof window is modelled by
  the Bool field hasWindow.
-/

/-- The persisted/in-memory session record (TypeScript type AuthSession). -/
structure AuthSession where
  email : String
  idToken : String
  refreshToken : String
  expiresAt : Int
deriving Repr, DecidableEq

/-- Response shape of the sign-in endpoint (TypeScript type SignInResponse).
The expiresIn field is a numeric string in transit; it is modelled by its
numeric value in seconds, matching the Number(response.expiresIn) parse. -/
structure SignInResponse where
  idToken : String
  email : String
  refreshToken : String
  expiresIn : Int
deriving Repr, DecidableEq

/-- Response shape of the refresh endpoint (TypeScript type RefreshResponse).
The expires_in field is modelled by its numeric value in seconds, matching
the Number(response.expires_in) parse. -/
structure RefreshResponse where
  id_token : String
  refresh_token : String
  expires_in : Int
  user_id : String
deriving Repr, DecidableEq

/-- The errors the service can surface: the two locally thrown Error values
and propagated HTTP failures from the collaborators. -/
inductive AuthError where
  | notAuthenticated
  | apiKeyMissing
  | http (e : String)
deriving Repr, DecidableEq

/-- The message carried by each locally thrown Error, as in the source. -/
def AuthError.message : AuthError → String
  | .notAuthenticated => "Usuário não autenticado."
  | .apiKeyMissing => "Firebase API Key não configurada no environment."
  | .http e => e

/-- Ambient environment of the service: the configured Firebase API key
(empty string models a falsy/missing key) and whether a window object
exists (typeof window is undefined on the server). -/
structure AuthEnv where
  apiKey : String
  hasWindow : Bool
deriving Repr, DecidableEq

/-- A small JSON value model for the localStorage record. -/
inductive Json where
  | null
  | str (s : String)
  | num (n : Int)
  | bool (b : Bool)
  | obj (fields : List (String × Json))
  | arr (elems : List Json)
deriving Repr

/-- First-match lookup among the key/value pairs of a JSON object. -/
def lookupField : List (String × Json) → String → Option Json
  | [], _ => none
  | (k, v) :: rest, key => if k = key then some v else lookupField rest key

/-- Field access on a JSON value: a field of an object, none otherwise. -/
def Json.lookup : Json → String → Option Json
  | .obj fields, key => lookupField fields key
  | _, _ => none

/-- Coerce a JSON value to a string, if it is one. -/
def Json.asStr : Json → Option String
  | .str s => some s
  | _ => none

/-- Coerce a JSON value to a number, if it is one. -/
def Json.asNum : Json → Option Int
  | .num n => some n
  | _ => none

/-- JSON.stringify of a session: the object literal with the four fields. -/
def encodeSession (s : AuthSession) : Json :=
  .obj [("email", .str s.email), ("idToken", .str s.idToken),
        ("refreshToken", .str s.refreshToken), ("expiresAt", .num s.expiresAt)]

/-- Modelled from the spec: the validated read of a stored record, per the
spec's fail-soft load (any decode error or shape mismatch treated as
absent).  On well-shaped records -- in particular every record the service
itself writes -- this agrees exactly with the source's unchecked cast
(JSON.parse(raw) as AuthSession).  The cast itself, which performs no
shape validation, is modelled faithfully by castAsSession below; the two
diverge only on wrong-shape valid-JSON records (see the C7 theorem). -/
def decodeSession (j : Json) : Option AuthSession :=
  match (j.lookup "email").bind Json.asStr,
        (j.lookup "idToken").bind Json.asStr,
        (j.lookup "refreshToken").bind Json.asStr,
        (j.lookup "expiresAt").bind Json.asNum with
  | some email, some idToken, some refreshToken, some expiresAt =>
      some { email := email, idToken := idToken,
             refreshToken := refreshToken, expiresAt := expiresAt }
  | _, _, _, _ => none

/-- Mutable state of the service: the session signal and the localStorage
record under the fixed key consultores.auth.session. -/
structure AuthState where
  session : Option AuthSession
  storage : Option Json
deriving Repr

/-- Derived observable isAuthenticated: computed(() => !!this.session()). -/
def isAuthenticated (st : AuthState) : Bool :=
  st.session.isSome

/-- Derived observable userEmail: computed(() => this.session()?.email ?? null). -/
def userEmail (st : AuthState) : Option String :=
  st.session.map (fun s => s.email)

/-- assertApiKey: throws when the configured key is falsy. -/
def assertApiKey (env : AuthEnv) : Except AuthError Unit :=
  if env.apiKey = "" then .error .apiKeyMissing else .ok ()

/-- restoreSession with the spec's validated load: none without a window
object; otherwise read and decode the stored record, any failure degrading
to none (the catch branch).  Identical to the source on well-shaped
records; the source's actual unchecked cast is restoreSessionUnchecked. -/
def restoreSession (env : AuthEnv) (storage : Option Json) : Option AuthSession :=
  if env.hasWindow then storage.bind decodeSession else none

/-- What the source's unchecked cast (JSON.parse(raw) as AuthSession)
actually yields: the parsed record viewed through the four property reads.
A missing key reads as undefined (none); a present key yields its raw JSON
value, with no type validation whatsoever. -/
structure RawSession where
  email : Option Json
  idToken : Option Json
  refreshToken : Option Json
  expiresAt : Option Json
deriving Repr

/-- The four property reads of the cast value. -/
def castAsSession (j : Json) : RawSession :=
  { email := j.lookup "email", idToken := j.lookup "idToken",
    refreshToken := j.lookup "refreshToken", expiresAt := j.lookup "expiresAt" }

/-- The source's restoreSession modelled faithfully to its unchecked cast:
whatever JSON.parse returns is adopted as the session as-is, with no shape
check (the catch covers only syntactic parse failures, which the Json-level
storage already excludes).  Modelled at object-valued stored records, which
are truthy in JS, so a present result is a session the service's null
checks (and the isAuthenticated signal) treat as set. -/
def restoreSessionUnchecked (env : AuthEnv) (storage : Option Json) :
    Option RawSession :=
  if env.hasWindow then storage.map castAsSession else none

/-- persistSession: set the session signal, then mirror the value to
localStorage (removeItem for null, setItem with the serialized session
otherwise); without a window object the storage write is skipped. -/
def persistSession (env : AuthEnv) (st : AuthState) (s? : Option AuthSession) :
    AuthState :=
  let st1 : AuthState := { st with session := s? }
  if env.hasWindow then
    match s? with
    | none => { st1 with storage := none }
    | some s => { st1 with storage := some (encodeSession s) }
  else st1

/-- toSession: build a session from a sign-in response; expiresAt is
Date.now() + Number(response.expiresIn) * 1000.  Note the email is taken
from the response, not from the login argument. -/
def toSession (now : Int) (r : SignInResponse) : AuthSession :=
  { email := r.email, idToken := r.idToken, refreshToken := r.refreshToken,
    expiresAt := now + r.expiresIn * 1000 }

/-- refreshSession: assert the API key, then post the stored refreshToken to
the refresh endpoint; on success build the replacement session, keeping the
current email and adopting id_token, refresh_token and the new expiry.
The Nat counts actual network calls (0 when the key assertion throws). -/
def refreshSession (env : AuthEnv) (now : Int)
    (refresher : String → Except String RefreshResponse)
    (current : AuthSession) : Except AuthError AuthSession × Nat :=
  match assertApiKey env with
  | .error e => (.error e, 0)
  | .ok _ =>
    match refresher current.refreshToken with
    | .error e => (.error (.http e), 1)
    | .ok r =>
      (.ok { email := current.email, idToken := r.id_token,
             refreshToken := r.refresh_token,
             expiresAt := now + r.expires_in * 1000 }, 1)

/-- getValidToken: throw notAuthenticated without a session; return the
cached idToken when expiresAt - 60000 > now; otherwise refresh, persist the
refreshed session and return its idToken, propagating refresh errors with
the state untouched.  Returns (result, new state, network call count). -/
def getValidToken (env : AuthEnv) (now : Int)
    (refresher : String → Except String RefreshResponse)
    (st : AuthState) : Except AuthError String × AuthState × Nat :=
  match st.session with
  | none => (.error .notAuthenticated, st, 0)
  | some current =>
    if current.expiresAt - 60000 > now then
      (.ok current.idToken, st, 0)
    else
      match refreshSession env now refresher current with
      | (.error e, n) => (.error e, st, n)
      | (.ok refreshed, n) =>
        (.ok refreshed.idToken, persistSession env st (some refreshed), n)

/-- logout: set the session signal to null, then persistSession(null). -/
def logout (env : AuthEnv) (st : AuthState) : AuthState :=
  persistSession env { st with session := none } none

/-- ensureSessionValidity (startup validation): nothing without a session;
if expiresAt <= now, attempt one refresh, persisting on success and forcing
logout on any failure (the catch branch).  Returns (state, call count). -/
def ensureSessionValidity (env : AuthEnv) (now : Int)
    (refresher : String → Except String RefreshResponse)
    (st : AuthState) : AuthState × Nat :=
  match st.session with
  | none => (st, 0)
  | some current =>
    if current.expiresAt ≤ now then
      match refreshSession env now refresher current with
      | (.ok refreshed, n) => (persistSession env st (some refreshed), n)
      | (.error _, n) => (logout env st, n)
    else (st, 0)

/-- Service construction: the session signal is initialized from
restoreSession() and the constructor fires ensureSessionValidity. -/
def startup (env : AuthEnv) (now : Int)
    (refresher : String → Except String RefreshResponse)
    (storage : Option Json) : AuthState × Nat :=
  ensureSessionValidity env now refresher
    { session := restoreSession env storage, storage := storage }

/-- login: assert the API key, post the trimmed credentials to the sign-in
endpoint, and on success build and persist the session from the response.
Returns (result, new state, network call count). -/
def login (env : AuthEnv) (now : Int)
    (issuer : String → String → Except String SignInResponse)
    (email password : String) (st : AuthState) :
    Except AuthError Unit × AuthState × Nat :=
  match assertApiKey env with
  | .error e => (.error e, st, 0)
  | .ok _ =>
    match issuer email.trim password.trim with
    | .error e => (.error (.http e), st, 1)
    | .ok r => (.ok (), persistSession env st (some (toSession now r)), 1)

/-! ## Sample inputs used by the concrete witnesses -/

/-- A browser environment with a configured API key. -/
def envOk : AuthEnv := { apiKey := "test-key", hasWindow := true }

/-- A browser environment with a missing API key. -/
def envNoKey : AuthEnv := { apiKey := "", hasWindow := true }

/-- A concrete session, as in the spec scenario. -/
def sampleSession : AuthSession :=
  { email := "a@b.com", idToken := "T1", refreshToken := "R1", expiresAt := 1000000 }

/-- A concrete refresh response rotating the refresh token. -/
def sampleRefreshResponse : RefreshResponse :=
  { id_token := "T2", refresh_token := "R2", expires_in := 3600, user_id := "u1" }

/-- A refresher that accepts exactly the stored token R1. -/
def refresherOk : String → Except String RefreshResponse :=
  fun t => if t = "R1" then .ok sampleRefreshResponse else .error "INVALID_REFRESH_TOKEN"

/-- A refresher whose exchange always fails. -/
def refresherFail : String → Except String RefreshResponse :=
  fun _ => .error "TOKEN_EXPIRED"

/-- An issuer that accepts any credentials and reports back the submitted
(identifier) email unchanged. -/
def echoIssuer : String → String → Except String SignInResponse :=
  fun e _ => .ok { idToken := "T1", email := e, refreshToken := "R1", expiresIn := 3600 }

/-- An issuer that accepts the credentials but reports the canonical stored
account email, which differs from the submitted identifier. -/
def canonicalizingIssuer : String → String → Except String SignInResponse :=
  fun _ _ =>
    .ok { idToken := "T1", email := "canonical@b.com", refreshToken := "R1",
          expiresIn := 3600 }

/-- An authenticated state whose storage mirrors the sample session. -/
def stAuthed : AuthState :=
  { session := some sampleSession, storage := some (encodeSession sampleSession) }

/-! ## Claims about getValidToken -/

/-- Claim C1: for every session whose expiresAt is within 60,000 ms of the
current time or already passed, getValidToken performs the refresh exchange
exactly once and, on success, replaces the session wholesale (identifier
preserved, the returned accessToken and rotated refreshToken adopted,
expiresAt set to now + lifetimeSeconds * 1000), returns the new accessToken,
and updates the persisted record to the new values. -/
theorem getValidToken_stale_refresh_success
    (env : AuthEnv) (now : Int) (refresher : String → Except String RefreshResponse)
    (st : AuthState) (s : AuthSession) (r : RefreshResponse)
    (hs : st.session = some s)
    (hstale : s.expiresAt ≤ now + 60000)
    (hkey : env.apiKey ≠ "")
    (hwin : env.hasWindow = true)
    (hr : refresher s.refreshToken = .ok r) :
    getValidToken env now refresher st =
      (.ok r.id_token,
       { session := some { email := s.email, idToken := r.id_token,
                           refreshToken := r.refresh_token,
                           expiresAt := now + r.expires_in * 1000 },
         storage := some (encodeSession
                      { email := s.email, idToken := r.id_token,
                        refreshToken := r.refresh_token,
                        expiresAt := now + r.expires_in * 1000 }) },
       1) := by
  have hcond : ¬ s.expiresAt - 60000 > now := by omega
  simp [getValidToken, hs, hcond, refreshSession, assertApiKey, hkey, hr,
    persistSession, hwin]

/-- Witness for C1 at the spec scenario: a session one second before expiry
is refreshed with R1, the rotated pair T2/R2 is adopted and persisted. -/
theorem getValidToken_stale_refresh_success_witness :
    getValidToken envOk 999000 refresherOk
        { session := some sampleSession, storage := some (encodeSession sampleSession) } =
      (.ok "T2",
       { session := some { email := "a@b.com", idToken := "T2",
                           refreshToken := "R2", expiresAt := 999000 + 3600 * 1000 },
         storage := some (encodeSession
                      { email := "a@b.com", idToken := "T2",
                        refreshToken := "R2", expiresAt := 999000 + 3600 * 1000 }) },
       1) :=
  getValidToken_stale_refresh_success envOk 999000 refresherOk
    { session := some sampleSession, storage := some (encodeSession sampleSession) }
    sampleSession sampleRefreshResponse rfl (by decide) (by decide) rfl rfl

/-- Claim C2: for every session whose expiresAt is more than 60,000 ms in
the future, getValidToken returns the cached accessToken with zero refresh
calls and leaves the state (session and persisted record) unchanged. -/
theorem getValidToken_fresh_cached
    (env : AuthEnv) (now : Int) (refresher : String → Except String RefreshResponse)
    (st : AuthState) (s : AuthSession)
    (hs : st.session = some s)
    (hfresh : now + 60000 < s.expiresAt) :
    getValidToken env now refresher st = (.ok s.idToken, st, 0) := by
  simp [getValidToken, hs]
  omega

/-- Witness for C2: 120 s before expiry the cached token T1 is returned with
no refresh call and no state change. -/
theorem getValidToken_fresh_cached_witness :
    getValidToken envOk 880000 refresherFail
        { session := some sampleSession, storage := some (encodeSession sampleSession) } =
      (.ok "T1",
       { session := some sampleSession, storage := some (encodeSession sampleSession) },
       0) :=
  getValidToken_fresh_cached envOk 880000 refresherFail
    { session := some sampleSession, storage := some (encodeSession sampleSession) }
    sampleSession rfl (by decide)

/-- Claim C3: when the refresh exchange performed by getValidToken fails,
the error is propagated to the caller and the state (in-memory session and
persisted record) is left unchanged: no forced logout on this path. -/
theorem getValidToken_refresh_failure_preserves_state
    (env : AuthEnv) (now : Int) (refresher : String → Except String RefreshResponse)
    (st : AuthState) (s : AuthSession) (e : String)
    (hs : st.session = some s)
    (hstale : s.expiresAt ≤ now + 60000)
    (hkey : env.apiKey ≠ "")
    (hr : refresher s.refreshToken = .error e) :
    getValidToken env now refresher st = (.error (.http e), st, 1) := by
  have hcond : ¬ s.expiresAt - 60000 > now := by omega
  simp [getValidToken, hs, hcond, refreshSession, assertApiKey, hkey, hr]

/-- Witness for C3: a failing exchange on a stale session propagates the
error and leaves the authenticated state intact. -/
theorem getValidToken_refresh_failure_preserves_state_witness :
    getValidToken envOk 999000 refresherFail
        { session := some sampleSession, storage := some (encodeSession sampleSession) } =
      (.error (.http "TOKEN_EXPIRED"),
       { session := some sampleSession, storage := some (encodeSession sampleSession) },
       1) :=
  getValidToken_refresh_failure_preserves_state envOk 999000 refresherFail
    { session := some sampleSession, storage := some (encodeSession sampleSession) }
    sampleSession "TOKEN_EXPIRED" rfl (by decide) (by decide) rfl

/-- Claim C5: whenever no session exists, getValidToken fails with the
not-authenticated error immediately, with zero network calls and no state
change. -/
theorem getValidToken_no_session
    (env : AuthEnv) (now : Int) (refresher : String → Except String RefreshResponse)
    (st : AuthState) (h : st.session = none) :
    getValidToken env now refresher st = (.error .notAuthenticated, st, 0) := by
  simp [getValidToken, h]

/-- Witness for C5 at the empty state. -/
theorem getValidToken_no_session_witness :
    getValidToken envOk 0 refresherOk { session := none, storage := none } =
      (.error .notAuthenticated, { session := none, storage := none }, 0) :=
  getValidToken_no_session envOk 0 refresherOk { session := none, storage := none } rfl

/-! ## Startup validation -/

/-- Claim C4: a session rehydrated from storage at startup whose expiresAt
has already elapsed triggers exactly one eager refresh attempt; if that
refresh fails, the resulting state is fully unauthenticated: the in-memory
session is absent and the persisted record is deleted. -/
theorem startup_expired_refresh_failure_logs_out
    (env : AuthEnv) (now : Int) (refresher : String → Except String RefreshResponse)
    (j : Json) (s : AuthSession) (e : String)
    (hwin : env.hasWindow = true)
    (hkey : env.apiKey ≠ "")
    (hj : decodeSession j = some s)
    (hexp : s.expiresAt ≤ now)
    (hr : refresher s.refreshToken = .error e) :
    startup env now refresher (some j) = ({ session := none, storage := none }, 1) := by
  simp [startup, restoreSession, hwin, hj, ensureSessionValidity, hexp,
    refreshSession, assertApiKey, hkey, hr, logout, persistSession]

/-- Witness for C4: the sample session expired 1000 s ago, the refresh
exchange fails, and startup ends fully unauthenticated after one attempt. -/
theorem startup_expired_refresh_failure_logs_out_witness :
    startup envOk 2000000 refresherFail (some (encodeSession sampleSession)) =
      ({ session := none, storage := none }, 1) :=
  startup_expired_refresh_failure_logs_out envOk 2000000 refresherFail
    (encodeSession sampleSession) sampleSession "TOKEN_EXPIRED"
    rfl (by decide) rfl (by decide) rfl

/-! ## Login observables -/

/-- Counterexample to claim C6 as stated: the session email is taken from
the sign-in response, not from the submitted identifier; with an issuer
that accepts the credentials but reports the canonical account email,
login succeeds yet currentUserIdentifier differs from the submitted
identifier. -/
theorem login_userEmail_not_submitted_counterexample :
    (login envOk 0 canonicalizingIssuer "A@B.com" "pw"
        { session := none, storage := none }).1 = .ok () ∧
    userEmail (login envOk 0 canonicalizingIssuer "A@B.com" "pw"
        { session := none, storage := none }).2.1 ≠ some "A@B.com" :=
  ⟨rfl, by decide⟩

/-- Claim C6 (amended): after a successful login, isAuthenticated is true
and currentUserIdentifier equals the email reported in the issuer's
response; when the issuer echoes the submitted identifier this is the
trimmed submitted identifier. -/
theorem login_success_observables
    (env : AuthEnv) (now : Int)
    (issuer : String → String → Except String SignInResponse)
    (email password : String) (st : AuthState) (r : SignInResponse)
    (hkey : env.apiKey ≠ "")
    (hi : issuer email.trim password.trim = .ok r) :
    (login env now issuer email password st).1 = .ok () ∧
    isAuthenticated (login env now issuer email password st).2.1 = true ∧
    userEmail (login env now issuer email password st).2.1 = some r.email := by
  cases hwin : env.hasWindow <;>
    simp [login, assertApiKey, hkey, hi, persistSession, hwin,
      isAuthenticated, userEmail, toSession]

/-- Witness for C6 (amended) with the echoing issuer: the stored identifier
is the (trimmed) submitted email. -/
theorem login_success_observables_witness :
    (login envOk 0 echoIssuer "a@b.com" "pw"
        { session := none, storage := none }).1 = .ok () ∧
    isAuthenticated (login envOk 0 echoIssuer "a@b.com" "pw"
        { session := none, storage := none }).2.1 = true ∧
    userEmail (login envOk 0 echoIssuer "a@b.com" "pw"
        { session := none, storage := none }).2.1 = some ("a@b.com".trim) :=
  login_success_observables envOk 0 echoIssuer "a@b.com" "pw"
    { session := none, storage := none }
    { idToken := "T1", email := "a@b.com".trim, refreshToken := "R1", expiresIn := 3600 }
    (by decide) rfl

/-! ## Session completeness and persistence round trip -/

/-- Claim C7 fails on the code: at startup with the valid-JSON wrong-shape
stored record carrying only an email field, the source's unchecked cast
rehydrates a present session object whose idToken, refreshToken, and
expiresAt property reads are all undefined — a partial session surfaces as
authenticated — whereas the spec's fail-soft load treats the same record
as absent.  The no-partial-sessions invariant holds for login, refresh,
and service-written records, but not for rehydration in general. -/
theorem rehydration_partial_session_bug :
    restoreSessionUnchecked envOk (some (.obj [("email", .str "a@b.com")])) =
      some { email := some (.str "a@b.com"), idToken := none,
             refreshToken := none, expiresAt := none } ∧
    decodeSession (.obj [("email", .str "a@b.com")]) = none :=
  ⟨rfl, rfl⟩

/-- Decoding inverts encoding on every session. -/
theorem decodeSession_encodeSession (s : AuthSession) :
    decodeSession (encodeSession s) = some s := rfl

/-- Claim C8: saving a session and loading it back yields a session equal
in all four fields to the original. -/
theorem save_then_load_round_trip
    (env : AuthEnv) (st : AuthState) (s : AuthSession)
    (hwin : env.hasWindow = true) :
    restoreSession env (persistSession env st (some s)).storage = some s := by
  simp [persistSession, restoreSession, hwin, decodeSession_encodeSession]

/-- Witness for C8 at the sample session. -/
theorem save_then_load_round_trip_witness :
    restoreSession envOk
        (persistSession envOk { session := none, storage := none }
          (some sampleSession)).storage = some sampleSession :=
  save_then_load_round_trip envOk { session := none, storage := none }
    sampleSession rfl

/-! ## Logout and configuration errors -/

/-- Claim C9: from every state, logout clears both the in-memory session
and the persisted record, afterwards isAuthenticated is false, logout is a
no-op on an already unauthenticated state, and a subsequent getValidToken
fails with the not-authenticated error (logout is total, hence never
fails). -/
theorem logout_unauthenticates
    (env : AuthEnv) (st : AuthState) (now : Int)
    (refresher : String → Except String RefreshResponse)
    (hwin : env.hasWindow = true) :
    (logout env st).session = none ∧
    (logout env st).storage = none ∧
    isAuthenticated (logout env st) = false ∧
    (st.session = none → st.storage = none → logout env st = st) ∧
    getValidToken env now refresher (logout env st) =
      (.error .notAuthenticated, logout env st, 0) := by
  refine ⟨by simp [logout, persistSession, hwin],
          by simp [logout, persistSession, hwin],
          by simp [logout, persistSession, hwin, isAuthenticated],
          ?_,
          by simp [logout, persistSession, hwin, getValidToken]⟩
  intro h1 h2
  cases st
  simp_all [logout, persistSession, hwin]

/-- Witness for C9: logout from the authenticated sample state clears both
copies, unauthenticates, blocks getValidToken, and is a no-op on the empty
state. -/
theorem logout_unauthenticates_witness :
    (logout envOk stAuthed).session = none ∧
    (logout envOk stAuthed).storage = none ∧
    isAuthenticated (logout envOk stAuthed) = false ∧
    getValidToken envOk 0 refresherOk (logout envOk stAuthed) =
      (.error .notAuthenticated, logout envOk stAuthed, 0) ∧
    logout envOk { session := none, storage := none } =
      { session := none, storage := none } := by
  have h := logout_unauthenticates envOk stAuthed 0 refresherOk rfl
  have h0 := logout_unauthenticates envOk { session := none, storage := none }
    0 refresherOk rfl
  exact ⟨h.1, h.2.1, h.2.2.1, h.2.2.2.2, h0.2.2.2.1 rfl rfl⟩

/-- Claim C10: with the API key unconfigured, login fails with the
configuration error before any network call, and on any stale session the
refresh path of getValidToken fails with the same configuration error
before any network call, leaving the state unchanged; the error carries
the Portuguese configuration message, which is outside the spec's error
taxonomy. -/
theorem missing_api_key_fails_before_network
    (env : AuthEnv) (now : Int)
    (issuer : String → String → Except String SignInResponse)
    (refresher : String → Except String RefreshResponse)
    (st : AuthState) (s : AuthSession) (email password : String)
    (hkey : env.apiKey = "") :
    login env now issuer email password st = (.error .apiKeyMissing, st, 0) ∧
    (st.session = some s → s.expiresAt ≤ now + 60000 →
      getValidToken env now refresher st = (.error .apiKeyMissing, st, 0)) ∧
    AuthError.message .apiKeyMissing =
      "Firebase API Key não configurada no environment." := by
  refine ⟨by simp [login, assertApiKey, hkey], ?_, rfl⟩
  intro hs hstale
  have hcond : ¬ s.expiresAt - 60000 > now := by omega
  simp [getValidToken, hs, hcond, refreshSession, assertApiKey, hkey]

/-- Witness for C10: on an expired sample state with no API key, both login
and getValidToken fail with the configuration error and zero network
calls. -/
theorem missing_api_key_fails_before_network_witness :
    login envNoKey 2000000 echoIssuer "a@b.com" "pw" stAuthed =
      (.error .apiKeyMissing, stAuthed, 0) ∧
    getValidToken envNoKey 2000000 refresherOk stAuthed =
      (.error .apiKeyMissing, stAuthed, 0) := by
  have h := missing_api_key_fails_before_network envNoKey 2000000 echoIssuer
    refresherOk stAuthed sampleSession "a@b.com" "pw" rfl
  exact ⟨h.1, h.2.1 rfl (by decide)⟩
